import Mathlib

/-!
Verification development for the KalevaAi layout-and-composition engine.

The definitions below are a shallow embedding of the Python sources:
  * `src/assets/newspaper_colors.py`   (color palette lookup)
  * `src/models/brand_config.py`       (brand and platform catalogs)
  * `src/services/graphic_composer.py` (the compositor primitives)
  * `src/services/layouts/*.py`        (the per-version layout handlers)
  * `src/services/video_generation.py` (the animation renderer's codec logic)

Modelling conventions:
  * Python float arithmetic on small integer inputs (ratios, `int(x * 0.8)`,
    pixel means) is modelled exactly with `ℚ` and floors; for nonnegative
    values `int()` truncation coincides with the floor, and Nat division
    `a / b` is used where the Python expression is `int(a_float_quotient)`
    of a nonnegative quantity.
  * Raised Python exceptions are modelled with `Except PyErr`.
  * A PIL canvas is modelled by its pixel dimensions together with the list
    of drawing operations applied to it; PIL `paste`/`ImageDraw` calls
    mutate pixels but never the size of the image they are applied to.
  * Font metrics (`draw.textbbox`) depend on the font file actually loaded
    at run time, so they enter the embedding as an abstract measure
    function `Nat → String → Nat × Nat` (font size, text ↦ bbox width/height).
-/

namespace KalevaAi

/-- An RGB triple, each channel 0–255 in the source data. -/
abbrev RGB := Nat × Nat × Nat

/-- An RGBA pixel as produced by `logo.getdata()` on an RGBA PIL image. -/
abbrev RGBA := Nat × Nat × Nat × Nat

/-- Python exceptions that the embedded code can raise. -/
inductive PyErr where
  | valueError (msg : String)
  | typeError (msg : String)
  | attributeError (missingAttr : String)
  | nameError (unboundName : String)
  deriving Repr, DecidableEq

/-- Boolean success test for an `Except` result. -/
def exceptIsOk {ε α : Type} : Except ε α → Bool
  | .ok _ => true
  | .error _ => false

/-! ## `src/assets/newspaper_colors.py` -/

/-- One palette entry of `NEWSPAPER_COLORS`, hex strings as in the source. -/
structure HexPalette where
  primary : String
  secondary : String
  accent : String
  background : String
  text_light : String
  text_dark : String
  deriving Repr, DecidableEq

/-- The `NEWSPAPER_COLORS` table (newspaper_colors.py lines 6–79). -/
def NEWSPAPER_COLORS : List (String × HexPalette) :=
  [ ("Kaleva", ⟨"#FF8C30", "#FFFFFF", "#000000", "#FF8C30", "#FFFFFF", "#000000"⟩),
    ("Lapin Kansa", ⟨"#0075bf", "#FFFFFF", "#000000", "#0075bf", "#FFFFFF", "#000000"⟩),
    ("Ilkka-Pohjalainen", ⟨"#54c1ef", "#FFFFFF", "#000000", "#54c1ef", "#FFFFFF", "#000000"⟩),
    ("Koillissanomat", ⟨"#76bd22", "#FFFFFF", "#000000", "#76bd22", "#FFFFFF", "#000000"⟩),
    ("Rantalakeus", ⟨"#de3414", "#FFFFFF", "#000000", "#de3414", "#FFFFFF", "#000000"⟩),
    ("Iijokiseutu", ⟨"#0073bb", "#FFFFFF", "#000000", "#0073bb", "#FFFFFF", "#000000"⟩),
    ("Raahen Seutu", ⟨"#76bd22", "#FFFFFF", "#000000", "#76bd22", "#FFFFFF", "#000000"⟩),
    ("Pyhäjokiseutu", ⟨"#009ac1", "#FFFFFF", "#000000", "#009ac1", "#FFFFFF", "#000000"⟩),
    ("Siikajokilaakso", ⟨"#0073bb", "#FFFFFF", "#000000", "#0073bb", "#FFFFFF", "#000000"⟩) ]

/-- `NEWSPAPER_COLORS.get(newspaper, NEWSPAPER_COLORS["Kaleva"])`:
the lookup helper falls back to the Kaleva palette for unknown keys
(newspaper_colors.py lines 82–84). -/
def get_newspaper_colors (newspaper : String) : HexPalette :=
  (NEWSPAPER_COLORS.lookup newspaper).getD
    ⟨"#FF8C30", "#FFFFFF", "#000000", "#FF8C30", "#FFFFFF", "#000000"⟩

/-- Value of one hex digit; the table entries only contain valid digits. -/
def hexVal (c : Char) : Nat :=
  if '0' ≤ c ∧ c ≤ '9' then c.toNat - '0'.toNat
  else if 'a' ≤ c ∧ c ≤ 'f' then c.toNat - 'a'.toNat + 10
  else if 'A' ≤ c ∧ c ≤ 'F' then c.toNat - 'A'.toNat + 10
  else 0

/-- `hex_to_rgb` (newspaper_colors.py lines 87–90): strip the leading `#`
and read three two-digit hex channels.  All table entries are well-formed
`#RRGGBB` strings; other shapes are unreachable from the table. -/
def hex_to_rgb (s : String) : RGB :=
  match s.toList.dropWhile (· = '#') with
  | [r1, r2, g1, g2, b1, b2] =>
      (16 * hexVal r1 + hexVal r2, 16 * hexVal g1 + hexVal g2, 16 * hexVal b1 + hexVal b2)
  | _ => (0, 0, 0)

/-- A palette with RGB values, the `colors` dict used by the compositor. -/
structure RgbPalette where
  primary : RGB
  secondary : RGB
  accent : RGB
  background : RGB
  text_light : RGB
  text_dark : RGB
  deriving Repr, DecidableEq

/-- `get_newspaper_colors_rgb` (newspaper_colors.py lines 93–101). -/
def get_newspaper_colors_rgb (newspaper : String) : RgbPalette :=
  let h := get_newspaper_colors newspaper
  ⟨hex_to_rgb h.primary, hex_to_rgb h.secondary, hex_to_rgb h.accent,
   hex_to_rgb h.background, hex_to_rgb h.text_light, hex_to_rgb h.text_dark⟩

/-! ## `src/models/brand_config.py` -/

/-- `BrandSpecs` dataclass (brand_config.py lines 9–20). -/
structure BrandSpecs where
  name : String
  logo_path : String
  color_palette : List String
  font_family : String
  font_color : String
  font_size_story : Nat
  font_size_post : Nat
  title_location_post : String
  title_location_story : String
  deriving Repr, DecidableEq

/-- `BRAND_SPECIFICATIONS` (brand_config.py lines 24–132); every entry uses
Axiforma, white font color, 80 px story / 60 px post sizes. -/
def BRAND_SPECIFICATIONS : List (String × BrandSpecs) :=
  [ ("Kaleva", ⟨"Kaleva", "assets/logos/kaleva.png", ["#000000", "#FFFFFF"],
      "Axiforma", "#FFFFFF", 80, 60, "top-left", "top-right"⟩),
    ("Lapin Kansa", ⟨"Lapin Kansa", "assets/logos/lapin_kansa.png", ["#000000", "#FFFFFF"],
      "Axiforma", "#FFFFFF", 80, 60, "top-left", "top-right"⟩),
    ("Ilkka-Pohjalainen", ⟨"Ilkka-Pohjalainen", "assets/logos/ilkka_pohjalainen.png",
      ["#000000", "#FFFFFF"], "Axiforma", "#FFFFFF", 80, 60, "top-left", "top-right"⟩),
    ("Koillissanomat", ⟨"Koillissanomat", "assets/logos/koillissanomat.png",
      ["#000000", "#FFFFFF"], "Axiforma", "#FFFFFF", 80, 60, "top-left", "top-right"⟩),
    ("Rantalakeus", ⟨"Rantalakeus", "assets/logos/rantalakeus.png", ["#000000", "#FFFFFF"],
      "Axiforma", "#FFFFFF", 80, 60, "top-left", "top-right"⟩),
    ("Iijokiseutu", ⟨"Iijokiseutu", "assets/logos/iijokiseutu.png", ["#000000", "#FFFFFF"],
      "Axiforma", "#FFFFFF", 80, 60, "top-left", "top-right"⟩),
    ("Raahen Seutu", ⟨"Raahen Seutu", "assets/logos/raahen_seutu.png", ["#000000", "#FFFFFF"],
      "Axiforma", "#FFFFFF", 80, 60, "top-left", "top-right"⟩),
    ("Pyhäjokiseutu", ⟨"Pyhäjokiseutu", "assets/logos/pyhajokiseutu.png",
      ["#000000", "#FFFFFF"], "Axiforma", "#FFFFFF", 80, 60, "top-left", "top-right"⟩),
    ("Siikajokilaakso", ⟨"Siikajokilaakso", "assets/logos/siikajokilaakso.png",
      ["#000000", "#FFFFFF"], "Axiforma", "#FFFFFF", 80, 60, "top-left", "top-right"⟩) ]

/-- `get_brand_specs` (brand_config.py lines 163–165): `.get`, so `None`
for an unknown newspaper. -/
def get_brand_specs (newspaper : String) : Option BrandSpecs :=
  BRAND_SPECIFICATIONS.lookup newspaper

/-- One canvas entry of `PLATFORM_SPECIFICATIONS`. -/
structure PlatformSpec where
  width : Nat
  height : Nat
  aspectLabel : String
  formats : List String
  deriving Repr, DecidableEq

/-- `get_platform_specs` (brand_config.py lines 136–170): the nested
`PLATFORM_SPECIFICATIONS` dict lookups; an empty (falsy) result is `none`. -/
def get_platform_specs (platform content_type layout : String) : Option PlatformSpec :=
  match platform, content_type, layout with
  | "instagram", "post", "square" => some ⟨1080, 1080, "1:1", ["PNG", "JPEG"]⟩
  | "instagram", "post", "portrait" => some ⟨1080, 1350, "4:5", ["PNG", "JPEG"]⟩
  | "instagram", "story", "portrait" => some ⟨1080, 1920, "9:16", ["MP4"]⟩
  | "facebook", "post", "square" => some ⟨1080, 1080, "1:1", ["PNG", "JPEG"]⟩
  | "facebook", "post", "landscape" => some ⟨1200, 628, "1.91:1", ["PNG", "JPEG"]⟩
  | "facebook", "story", "portrait" => some ⟨1080, 1920, "9:16", ["MP4"]⟩
  | "linkedin", "post", "landscape" => some ⟨1200, 627, "1.91:1", ["PNG", "JPEG"]⟩
  | _, _, _ => none

/-! ## Greedy word wrap (graphic_composer.py lines 752–773 and the
identical copies at lines 516–536 and 864–885)

The Python code splits the headline into whitespace-separated words and
accumulates them into lines; the only use it makes of the font is the test
`text_width > width * 0.8` on the joined candidate line, so the wrap is
parameterized here by that boolean test `exceeds` on the joined string.
Lines are kept as word lists; the drawn line string is their join. -/

/-- `" ".join(current_line)`. -/
def joinWords (ws : List String) : String := String.intercalate " " ws

/-- Python `text.split()`: split on runs of whitespace, discarding empty
pieces. -/
def pySplit (text : String) : List String :=
  (text.toList.foldr
    (fun c groups =>
      if c.isWhitespace then [] :: groups
      else
        match groups with
        | [] => [[c]]
        | g :: gs => (c :: g) :: gs)
    ([] : List (List Char))).filterMap
    (fun g => if g = [] then none else some (String.mk g))

/-- One iteration of the wrap loop: state is (closed lines, current line). -/
def wrapStep (exceeds : String → Bool) (st : List (List String) × List String)
    (w : String) : List (List String) × List String :=
  let cur := st.2 ++ [w]
  if exceeds (joinWords cur) then
    if cur.length > 1 then (st.1 ++ [st.2], [w])
    else (st.1 ++ [cur], [])
  else (st.1, cur)

/-- The full greedy wrap: run the loop over all words, then flush the
remaining current line if non-empty. -/
def wrapWords (exceeds : String → Bool) (words : List String) : List (List String) :=
  let st := words.foldl (wrapStep exceeds) ([], [])
  if st.2 ≠ [] then st.1 ++ [st.2] else st.1

/-- The width test actually used by the headline routines:
`text_width > width * 0.8` with an abstract bbox-width measure.  On the
integers involved, `text_width > 0.8 * width` holds exactly when
`5 * text_width > 4 * width`; `exceedsWidth_eq_rat` below restates it over
`ℚ`. -/
def exceedsWidth (measureW : String → Nat) (width : Nat) (s : String) : Bool :=
  decide (5 * measureW s > 4 * width)

/-- The wrapped headline lines, as computed by `_add_headline` (and its
top/centered variants) for a given measure, canvas width and text. -/
def headlineLines (measureW : String → Nat) (width : Nat) (text : String) :
    List (List String) :=
  wrapWords (exceedsWidth measureW width) (pySplit text)

/-! ## Background layer (graphic_composer.py lines 174–232)

`_smart_resize` scales the source image so that it covers the target in
both dimensions and then center-crops the excess; `int()` on the
nonnegative float products is modelled as the rational floor. -/

/-- Result of `_smart_resize`: the dimensions after `resize` and the crop
box `(left, upper, right, lower)` handed to `crop`. -/
structure ResizePlan where
  resizedW : Nat
  resizedH : Nat
  cropLeft : Nat
  cropUpper : Nat
  cropRight : Nat
  cropLower : Nat
  deriving Repr, DecidableEq

/-- `_smart_resize` (graphic_composer.py lines 194–219) on the image and
target dimensions. -/
def smart_resize (imgW imgH targetW targetH : Nat) : ResizePlan :=
  if (imgW : ℚ) / imgH > (targetW : ℚ) / targetH then
    let newH := targetH
    let newW := ⌊(targetH : ℚ) * ((imgW : ℚ) / imgH)⌋₊
    let xOff := (newW - targetW) / 2
    ⟨newW, newH, xOff, 0, xOff + targetW, targetH⟩
  else
    let newW := targetW
    let newH := ⌊(targetW : ℚ) / ((imgW : ℚ) / imgH)⌋₊
    let yOff := (newH - targetH) / 2
    ⟨newW, newH, 0, yOff, targetW, yOff + targetH⟩

/-- Pixel dimensions of the layer produced by `crop`: PIL's crop returns
an image of exactly the box dimensions. -/
def ResizePlan.dims (p : ResizePlan) : Nat × Nat :=
  (p.cropRight - p.cropLeft, p.cropLower - p.cropUpper)

/-- The crop box stays inside the resized image: this is the "fill and
center-crop, never letterbox" property (a crop box escaping the image
would make PIL pad the excess with a uniform border). -/
def ResizePlan.cropInBounds (p : ResizePlan) : Prop :=
  p.cropRight ≤ p.resizedW ∧ p.cropLower ≤ p.resizedH

instance (p : ResizePlan) : Decidable p.cropInBounds := by
  unfold ResizePlan.cropInBounds; infer_instance

/-- `int(240 - (y / height) * 40)`, the gray value of gradient row `y`
(graphic_composer.py line 228); the value lies in `[200, 240]`, so the
`int()` truncation is the floor. -/
def gradientRowValue (height y : Nat) : ℤ :=
  ⌊(240 : ℚ) - ((y : ℚ) / height) * 40⌋

/-- The background layer: either a smart-resized photo or, when the image
is missing or any load/processing step throws, the gradient fallback of
the requested size (graphic_composer.py lines 174–192: the `except`
swallows every exception and returns `_create_gradient_background`). -/
inductive BgLayer where
  | photo (plan : ResizePlan)
  | gradient (w h : Nat)
  deriving Repr, DecidableEq

/-- `_create_background_layer`; `img` carries the source dimensions of a
successfully loaded image, `none` models a missing file or load failure. -/
def create_background_layer (img : Option (Nat × Nat)) (width height : Nat) : BgLayer :=
  match img with
  | some (iw, ih) => .photo (smart_resize iw ih width height)
  | none => .gradient width height

/-- Dimensions of the produced layer. -/
def BgLayer.dims : BgLayer → Nat × Nat
  | .photo p => p.dims
  | .gradient w h => (w, h)

/-! ## Canvas and drawing operations

PIL `ImageDraw` calls and `paste` mutate the pixels of an image in place
and never change its size; the canvas is therefore modelled by its
dimensions, base fill and the ordered list of drawing operations. -/

/-- A drawing operation recorded on the canvas. -/
inductive DrawOp where
  | rect (x0 y0 x1 y1 : Int) (fill : RGB)
  | textDraw (x y : Int) (s : String) (fill : RGB) (fontSize : Nat)
  | pasteBox (x y : Int) (w h : Nat)
  deriving Repr, DecidableEq

/-- The canvas of one in-flight render. -/
structure Canvas where
  width : Nat
  height : Nat
  bg : RGB
  ops : List DrawOp
  deriving Repr, DecidableEq

/-- Record one drawing operation. -/
def Canvas.draw (c : Canvas) (op : DrawOp) : Canvas :=
  { c with ops := c.ops ++ [op] }

/-- Record a batch of drawing operations. -/
def Canvas.drawAll (c : Canvas) (l : List DrawOp) : Canvas :=
  { c with ops := c.ops ++ l }

/-- Python `//` (floor division) on possibly negative integers. -/
def pyFloorDiv (a b : Int) : Int := Int.fdiv a b

/-- The per-render environment: externally supplied assets and the font
metrics of whatever font `_load_font` resolved (the fallback chain never
fails, so a font handle always exists; only its metrics vary). -/
structure RenderEnv where
  /-- `input_image_path` handling: `none` = no path or path does not exist;
  `some none` = file exists but loading/processing threw (gradient
  fallback); `some (some (w, h))` = loaded image with those dimensions. -/
  inputImage : Option (Option (Nat × Nat))
  /-- `Path(brand_specs.logo_path).exists()`. -/
  logoFileExists : Bool
  /-- Dimensions of a successfully opened logo; `none` models
  `Image.open`/resize throwing inside the guarded `try` block. -/
  loadedLogo : Option (Nat × Nat)
  /-- `draw.textbbox((0,0), text, font)` width and height for the font of
  a given pixel size. -/
  textSize : Nat → String → Nat × Nat

/-- bbox width only. -/
def RenderEnv.textW (env : RenderEnv) (fontSize : Nat) (s : String) : Nat :=
  (env.textSize fontSize s).1

/-! ## Banner text and `str.upper()` -/

/-- Python `str.upper()` restricted to the alphabet appearing in this
repository's banner texts (ASCII plus the Finnish letters ä/ö/å). -/
def pyUpperChar (c : Char) : Char :=
  if c = 'ä' then 'Ä' else if c = 'ö' then 'Ö' else if c = 'å' then 'Å' else c.toUpper

/-- `banner_text.upper()`. -/
def pyUpper (s : String) : String := String.mk (s.toList.map pyUpperChar)

/-- The default banner string used by every banner routine. -/
def DEFAULT_BANNER : String := "ALUE- JA KUNTA-VAALIT 2025"

/-- `if not banner_text: banner_text = "ALUE- JA KUNTA-VAALIT 2025"`:
Python's falsiness covers both `None` and the empty string. -/
def resolveBannerText (banner_text : Option String) : String :=
  match banner_text with
  | none => DEFAULT_BANNER
  | some s => if s = "" then DEFAULT_BANNER else s

/-! ## Compositor primitives (graphic_composer.py) -/

/-- `_add_semi_transparent_overlay` (lines 293–307): paste a solid
primary-color block over the bottom 20 % of the canvas. -/
def add_semi_transparent_overlay (canvas : Canvas) (colors : RgbPalette)
    (width height : Nat) : Canvas :=
  let overlay_height := (height * 20) / 100
  let y_pos := height - overlay_height
  canvas.draw (.pasteBox 0 (y_pos : Int) width overlay_height)

/-- `_add_newspaper_background_overlay` (lines 277–291): solid
primary-color block over the bottom third. -/
def add_newspaper_background_overlay (canvas : Canvas) (colors : RgbPalette)
    (width height : Nat) : Canvas :=
  let overlay_height := height / 3
  let y_pos := height - overlay_height
  canvas.draw (.pasteBox 0 (y_pos : Int) width overlay_height)

/-- `_add_campaign_banner` (lines 671–724). -/
def add_campaign_banner (env : RenderEnv) (canvas : Canvas) (colors : RgbPalette)
    (content_type : String) (width height : Nat) (banner_text : Option String) : Canvas :=
  let text := pyUpper (resolveBannerText banner_text)
  let font_size := min ((height * 4) / 100) 28
  let text_width := (env.textSize font_size text).1
  let text_height := (env.textSize font_size text).2
  let padding_x := max ((height * 4) / 100) 15
  let padding_y := max ((height * 4) / 100) 10
  let banner_width := text_width + padding_x * 2
  let banner_height := text_height + padding_y * 2
  let x_pos : Int := pyFloorDiv ((width : Int) - banner_width) 2
  let y_pos : Int :=
    if content_type = "story" then
      ((height * 50) / 100 : Nat) - (banner_height : Int) - ((height * 3) / 100 : Nat)
    else
      ((height * 25) / 100 : Nat) - (banner_height : Int) - ((height * 2) / 100 : Nat)
  (canvas.draw (.rect x_pos y_pos (x_pos + banner_width) (y_pos + banner_height)
      (255, 255, 255))).draw
    (.textDraw (x_pos + padding_x) (y_pos + padding_y) text colors.primary font_size)

/-- `_add_campaign_banner_story` (lines 798–845): identical except the
banner sits 12 % above the story headline's 50 % mark. -/
def add_campaign_banner_story (env : RenderEnv) (canvas : Canvas) (colors : RgbPalette)
    (content_type : String) (width height : Nat) (banner_text : Option String) : Canvas :=
  let text := pyUpper (resolveBannerText banner_text)
  let font_size := min ((height * 4) / 100) 28
  let text_width := (env.textSize font_size text).1
  let text_height := (env.textSize font_size text).2
  let padding_x := max ((height * 4) / 100) 15
  let padding_y := max ((height * 4) / 100) 10
  let banner_width := text_width + padding_x * 2
  let banner_height := text_height + padding_y * 2
  let x_pos : Int := pyFloorDiv ((width : Int) - banner_width) 2
  let y_pos : Int :=
    ((height * 50) / 100 : Nat) - (banner_height : Int) - ((height * 12) / 100 : Nat)
  (canvas.draw (.rect x_pos y_pos (x_pos + banner_width) (y_pos + banner_height)
      (255, 255, 255))).draw
    (.textDraw (x_pos + padding_x) (y_pos + padding_y) text colors.primary font_size)

/-- `_add_campaign_banner_landscape` (lines 902–952). -/
def add_campaign_banner_landscape (env : RenderEnv) (canvas : Canvas) (colors : RgbPalette)
    (content_type : String) (width height : Nat) (banner_text : Option String)
    (version : Nat) : Canvas :=
  let text := pyUpper (resolveBannerText banner_text)
  let font_size := min ((height * 4) / 100) 28
  let text_width := (env.textSize font_size text).1
  let text_height := (env.textSize font_size text).2
  let padding_x := max ((height * 4) / 100) 15
  let padding_y := max ((height * 4) / 100) 10
  let banner_width := text_width + padding_x * 2
  let banner_height := text_height + padding_y * 2
  let panel_width := (width * 4) / 10
  let photo_width := width - panel_width
  let x_pos : Int :=
    if version = 1 then (photo_width + (photo_width * 5) / 100 : Nat)
    else ((photo_width * 5) / 100 : Nat)
  let y_pos : Int := ((height * 5) / 100 : Nat)
  (canvas.draw (.rect x_pos y_pos (x_pos + banner_width) (y_pos + banner_height)
      (255, 255, 255))).draw
    (.textDraw (x_pos + padding_x) (y_pos + padding_y) text colors.primary font_size)

/-- `_create_split_screen_layout` (lines 954–971). -/
def create_split_screen_layout (canvas : Canvas) (colors : RgbPalette)
    (width height : Nat) (version : Nat) : Canvas :=
  let panel_width := (width * 4) / 10
  let photo_width := width - panel_width
  if version = 1 then
    canvas.draw (.rect 0 0 (panel_width : Int) (height : Int) colors.primary)
  else
    canvas.draw (.rect (photo_width : Int) 0 (width : Int) (height : Int) colors.primary)

/-! ## Logo placement -/

/-- Logo width/height after the uniform-sizing constraints of
`_add_newspaper_logo_bottom`/`_story` (fixed target height, width capped). -/
def logoSizeHeightConstrained (logoW logoH targetH maxW : Nat) : Nat × Nat :=
  let w := (targetH * logoW) / logoH
  if w > maxW then (maxW, (maxW * logoH) / logoW) else (w, targetH)

/-- Whether the loaded-logo branch runs: the brand is known, its
`logo_path` is a non-empty string and the file exists. -/
def logoBranchTaken (newspaper : String) (logoFileExists : Bool) : Bool :=
  match get_brand_specs newspaper with
  | some bs => bs.logo_path ≠ "" ∧ logoFileExists
  | none => false

/-- `_add_newspaper_logo_bottom` (lines 385–456).  When the logo asset is
unavailable the function enters its text-logo fallback, whose first
statement `draw.textbbox(...)` references the local name `draw` — never
bound anywhere in this function body — so Python raises `NameError`. -/
def add_newspaper_logo_bottom (env : RenderEnv) (canvas : Canvas) (newspaper : String)
    (colors : RgbPalette) (width height : Nat) : Except PyErr Canvas :=
  let logo_height := (height * 8) / 100
  let max_logo_width := (width * 4) / 10
  let solid_color_height := (height * 20) / 100
  let solid_color_start := height - solid_color_height
  let x_center := width / 2
  let y_center := solid_color_start + solid_color_height / 2
  if logoBranchTaken newspaper env.logoFileExists then
    match env.loadedLogo with
    | some (lw, lh) =>
        let sz := logoSizeHeightConstrained lw lh logo_height max_logo_width
        Except.ok (canvas.draw (.pasteBox ((x_center : Int) - sz.1 / 2)
          ((y_center : Int) - sz.2 / 2) sz.1 sz.2))
    | none => Except.ok canvas
  else
    Except.error (.nameError "draw")

/-- `_add_newspaper_logo_bottom_story` (lines 309–383): same shape but
with `draw` bound at the top, so the fallback draws the newspaper name
with a 1 px black shadow at the same anchor. -/
def add_newspaper_logo_bottom_story (env : RenderEnv) (canvas : Canvas) (newspaper : String)
    (colors : RgbPalette) (width height : Nat) : Canvas :=
  let logo_height := (height * 12) / 100
  let max_logo_width := (width * 5) / 10
  let solid_color_height := (height * 20) / 100
  let solid_color_start := height - solid_color_height
  let x_center := width / 2
  let y_center := solid_color_start + solid_color_height / 5
  let canvas :=
    if logoBranchTaken newspaper env.logoFileExists then
      match env.loadedLogo with
      | some (lw, lh) =>
          let sz := logoSizeHeightConstrained lw lh logo_height max_logo_width
          canvas.draw (.pasteBox ((x_center : Int) - sz.1 / 2)
            ((y_center : Int) - sz.2 / 2) sz.1 sz.2)
      | none => canvas
    else canvas
  if ¬ logoBranchTaken newspaper env.logoFileExists then
    let font_size := min logo_height 24
    let text_width := (env.textSize font_size newspaper).1
    let text_height := (env.textSize font_size newspaper).2
    let text_x : Int := (x_center : Int) - text_width / 2
    let text_y : Int := (y_center : Int) - text_height / 2
    (canvas.draw (.textDraw (text_x + 1) (text_y + 1) newspaper (0, 0, 0) font_size)).draw
      (.textDraw text_x text_y newspaper colors.text_light font_size)
  else canvas

/-- `_add_newspaper_logo_bottom_left` (lines 557–626): fixed width, height
capped; the text fallback binds its own `draw` and uses the primary color. -/
def add_newspaper_logo_bottom_left (env : RenderEnv) (canvas : Canvas) (newspaper : String)
    (colors : RgbPalette) (width height : Nat) : Canvas :=
  let logo_width := (width * 5) / 10
  let max_logo_height := (height * 12) / 100
  let x_pos := (width * 5) / 100
  let y_pos := height - (height * 5) / 100 - max_logo_height
  let canvas :=
    if logoBranchTaken newspaper env.logoFileExists then
      match env.loadedLogo with
      | some (lw, lh) =>
          let hCalc := (logo_width * lh) / lw
          let sz : Nat × Nat :=
            if hCalc > max_logo_height then ((max_logo_height * lw) / lh, max_logo_height)
            else (logo_width, hCalc)
          canvas.draw (.pasteBox (x_pos : Int) (y_pos : Int) sz.1 sz.2)
      | none => canvas
    else canvas
  if ¬ logoBranchTaken newspaper env.logoFileExists then
    let font_size := min max_logo_height 24
    let text_height := (env.textSize font_size newspaper).2
    let text_x : Int := (x_pos : Int)
    let text_y : Int := (height : Int) - ((height * 5) / 100 : Nat) - text_height
    (canvas.draw (.textDraw (text_x + 1) (text_y + 1) newspaper (0, 0, 0) font_size)).draw
      (.textDraw text_x text_y newspaper colors.primary font_size)
  else canvas

/-- `_add_newspaper_logo_landscape` (lines 1056–1102): paste on the solid
panel; no text fallback at all — a missing logo is silently skipped. -/
def add_newspaper_logo_landscape (env : RenderEnv) (canvas : Canvas) (newspaper : String)
    (colors : RgbPalette) (width height : Nat) (version : Nat) : Canvas :=
  let panel_width := (width * 4) / 10
  let photo_width := width - panel_width
  let logo_height := (height * 8) / 100
  let x_center := if version = 1 then panel_width / 2 else photo_width + panel_width / 2
  let y_pos := height - height / 10 - logo_height
  if logoBranchTaken newspaper env.logoFileExists then
    match env.loadedLogo with
    | some (lw, lh) =>
        let logoW := (logo_height * lw) / lh
        canvas.draw (.pasteBox ((x_center : Int) - logoW / 2) (y_pos : Int) logoW logo_height)
    | none => canvas
  else canvas

/-! ## Headline layout -/

/-- Per-line drawing of a wrapped headline block: each line is centered on
`xCenter`, lines advance by `step`, an optional black shadow copy is drawn
first at the given offset. -/
def headlineLineOps (textW : String → Nat) (fontSize : Nat) (xCenter : Nat) (startY : Int)
    (step : Nat) (shadowOffset : Option Int) (color : RGB) (lines : List (List String)) :
    List DrawOp :=
  lines.enum.flatMap fun p =>
    let line := joinWords p.2
    let tw := textW line
    let tx : Int := (xCenter : Int) - ((tw / 2 : Nat) : Int)
    let ty : Int := startY + (p.1 : Int) * step
    match shadowOffset with
    | some off =>
        [.textDraw (tx + off) (ty + off) line (0, 0, 0) fontSize,
         .textDraw tx ty line color fontSize]
    | none => [.textDraw tx ty line color fontSize]

/-- `_add_headline` (lines 726–792): brand font size (story size × 1.2 for
stories), greedy wrap at 80 % of the canvas width, block vertically
centered at 50 % (story) or 60 % (post) of the height, 2 px shadow, white. -/
def add_headline (env : RenderEnv) (canvas : Canvas) (text : String) (width height : Nat)
    (newspaper content_type : String) : Canvas :=
  let x_center := width / 2
  let y_center := if content_type = "story" then (height * 50) / 100 else (height * 60) / 100
  let font_size :=
    match get_brand_specs newspaper with
    | some bs =>
        let fs := if content_type = "story" then bs.font_size_story else bs.font_size_post
        if content_type = "story" then (fs * 12) / 10 else fs
    | none => min (min (width / 15) (height / 15)) 48
  let lines := wrapWords (exceedsWidth (env.textW font_size) width) (pySplit text)
  let total_height := lines.length * font_size
  let start_y : Int := (y_center : Int) - ((total_height / 2 : Nat) : Int)
  canvas.drawAll (headlineLineOps (env.textW font_size) font_size x_center start_y
    font_size (some 2) (255, 255, 255) lines)

/-- `_add_headline_top` (lines 498–555): same wrap, block anchored at 25 %
of the height. -/
def add_headline_top (env : RenderEnv) (canvas : Canvas) (text : String) (width height : Nat)
    (newspaper content_type : String) : Canvas :=
  let x_center := width / 2
  let y_pos := (height * 25) / 100
  let font_size :=
    match get_brand_specs newspaper with
    | some bs => if content_type = "story" then bs.font_size_story else bs.font_size_post
    | none => min (min (width / 15) (height / 15)) 48
  let lines := wrapWords (exceedsWidth (env.textW font_size) width) (pySplit text)
  canvas.drawAll (headlineLineOps (env.textW font_size) font_size x_center (y_pos : Int)
    font_size (some 2) (255, 255, 255) lines)

/-- `_add_headline_centered` (lines 847–900): block centered at 50 % of
the height, no shadow. -/
def add_headline_centered (env : RenderEnv) (canvas : Canvas) (text : String)
    (width height : Nat) (newspaper content_type : String) : Canvas :=
  let x_center := width / 2
  let y_center := height / 2
  let font_size :=
    match get_brand_specs newspaper with
    | some bs => if content_type = "story" then bs.font_size_story else bs.font_size_post
    | none => min (min (width / 15) (height / 15)) 48
  let lines := wrapWords (exceedsWidth (env.textW font_size) width) (pySplit text)
  let total_height := lines.length * font_size
  let start_y : Int := (y_center : Int) - ((total_height / 2 : Nat) : Int)
  canvas.drawAll (headlineLineOps (env.textW font_size) font_size x_center start_y
    font_size none (255, 255, 255) lines)

/-- The font-shrinking loop of `_add_headline_landscape` (lines 1012–1018):
decrease the size until the word fits the available width or 12 px. -/
def shrinkFontSize (textW : Nat → String → Nat) (avail : ℚ) (word : String) (fs : Nat) :
    Nat :=
  if h : 12 < fs ∧ avail < (textW fs word : ℚ) then
    shrinkFontSize textW avail word (fs - 1)
  else fs
termination_by fs
decreasing_by omega

/-- The per-word pass over the headline that precedes the landscape wrap
(lines 1008–1018). -/
def adjust_font_for_long_words (textW : Nat → String → Nat) (avail : ℚ)
    (words : List String) (fs0 : Nat) : Nat :=
  words.foldl
    (fun fs word =>
      if (avail < (textW fs word : ℚ)) then shrinkFontSize textW avail word fs else fs)
    fs0

/-- `_add_headline_landscape` (lines 973–1054): text on the solid panel,
wrapped to 70 % of the panel width, with the adaptive font size. -/
def add_headline_landscape (env : RenderEnv) (canvas : Canvas) (text : String)
    (width height : Nat) (newspaper content_type : String) (version : Nat) : Canvas :=
  let panel_width := (width * 4) / 10
  let photo_width := width - panel_width
  let x_center := if version = 1 then panel_width / 2 else photo_width + panel_width / 2
  let y_pos := (height * 15) / 100
  let font_size0 :=
    match get_brand_specs newspaper with
    | some bs =>
        let base := if content_type = "story" then bs.font_size_story else bs.font_size_post
        min (min base (panel_width / 8)) (min (height / 12) 48)
    | none => min (panel_width / 8) (min (height / 12) 48)
  let available_width : ℚ := (panel_width : ℚ) * (7 / 10)
  let words := pySplit text
  let font_size := adjust_font_for_long_words env.textW available_width words font_size0
  let lines := wrapWords (fun s => decide (available_width < (env.textW font_size s : ℚ))) words
  let line_spacing := (font_size * 2) / 10
  canvas.drawAll (headlineLineOps (env.textW font_size) font_size x_center (y_pos : Int)
    (font_size + line_spacing) none (255, 255, 255) lines)

/-! ## Layout handlers (src/services/layouts)

The handlers call methods through `self.graphic_composer.<name>`; the
existence of each attribute, and the keyword arguments each call passes,
are checked the way Python does at the call site. -/

/-- The method names actually defined on `GraphicComposer`
(graphic_composer.py, class body). -/
def composerMethods : List String :=
  ["_load_font", "create_branded_social_graphic", "_create_background_layer",
   "_smart_resize", "_create_gradient_background", "_add_dark_overlay",
   "_add_newspaper_logo", "_add_newspaper_background_overlay",
   "_add_semi_transparent_overlay", "_add_newspaper_logo_bottom_story",
   "_add_newspaper_logo_bottom", "_add_headline_top",
   "_add_newspaper_logo_bottom_left", "_apply_color_template",
   "_add_campaign_banner", "_add_headline", "_add_campaign_banner_story",
   "_add_headline_centered", "_add_campaign_banner_landscape",
   "_create_split_screen_layout", "_add_headline_landscape",
   "_add_newspaper_logo_landscape"]

/-- `self.graphic_composer.<name>(...)`: a name not defined on the class
raises `AttributeError` before anything runs. -/
def composerAttr (name : String) (k : Unit → Except PyErr Canvas) : Except PyErr Canvas :=
  if composerMethods.contains name then k () else .error (.attributeError name)

/-- A Python call site passing keyword arguments: a keyword the callee's
signature does not accept raises `TypeError` before the body runs. -/
def callWithKwargs (accepted : List String) (kwargs : List String)
    (k : Unit → Except PyErr Canvas) : Except PyErr Canvas :=
  if kwargs.all (fun kw => accepted.contains kw) then k ()
  else .error (.typeError "unexpected keyword argument")

/-- The parameter names accepted by `_add_campaign_banner`
(graphic_composer.py line 671). -/
def addCampaignBannerParams : List String :=
  ["canvas", "colors", "content_type", "width", "height", "banner_text"]

/-- `PostLayoutHandler._create_portrait_post_version_1` (post_layouts.py
lines 45–62); line 51 passes `version=1` to `_add_campaign_banner`. -/
def create_portrait_post_version_1 (env : RenderEnv) (canvas : Canvas)
    (heading_text newspaper content_type campaign_type : String) (colors : RgbPalette)
    (width height : Nat) (banner_text : Option String) : Except PyErr Canvas :=
  (if campaign_type ≠ "logo_only" then
      callWithKwargs addCampaignBannerParams ["version"]
        (fun _ => .ok (add_campaign_banner env canvas colors content_type width height
          banner_text))
    else .ok canvas).bind fun canvas1 =>
  let canvas2 := add_semi_transparent_overlay canvas1 colors width height
  (add_newspaper_logo_bottom env canvas2 newspaper colors width height).bind fun canvas3 =>
  .ok (add_headline env canvas3 heading_text width height newspaper content_type)

/-- `PostLayoutHandler._create_portrait_post_version_2` (lines 64–78);
line 70 passes `version=2` to `_add_campaign_banner`. -/
def create_portrait_post_version_2 (env : RenderEnv) (canvas : Canvas)
    (heading_text newspaper content_type campaign_type : String) (colors : RgbPalette)
    (width height : Nat) (banner_text : Option String) : Except PyErr Canvas :=
  (if campaign_type ≠ "logo_only" then
      callWithKwargs addCampaignBannerParams ["version"]
        (fun _ => .ok (add_campaign_banner env canvas colors content_type width height
          banner_text))
    else .ok canvas).bind fun canvas1 =>
  let canvas2 := add_headline_top env canvas1 heading_text width height newspaper
    content_type
  .ok (add_newspaper_logo_bottom_left env canvas2 newspaper colors width height)

/-- `PostLayoutHandler._create_portrait_post_version_3` (lines 80–94): the
first call is `self.graphic_composer._add_newspaper_logo_top_left`, an
attribute `GraphicComposer` does not define. -/
def create_portrait_post_version_3 (env : RenderEnv) (canvas : Canvas)
    (heading_text newspaper content_type campaign_type : String) (colors : RgbPalette)
    (width height : Nat) (banner_text : Option String) : Except PyErr Canvas :=
  composerAttr "_add_newspaper_logo_top_left" (fun _ => .ok canvas)

/-- `PostLayoutHandler._create_portrait_post_version_4` (lines 96–113):
after the background overlay it calls the undefined
`_add_newspaper_logo_top_center`. -/
def create_portrait_post_version_4 (env : RenderEnv) (canvas : Canvas)
    (heading_text newspaper content_type campaign_type : String) (colors : RgbPalette)
    (width height : Nat) (banner_text : Option String) : Except PyErr Canvas :=
  let canvas := add_newspaper_background_overlay canvas colors width height
  composerAttr "_add_newspaper_logo_top_center" (fun _ => .ok canvas)

/-- `PostLayoutHandler.create_portrait_post` (lines 20–35). -/
def create_portrait_post (env : RenderEnv) (canvas : Canvas)
    (heading_text newspaper content_type campaign_type : String) (colors : RgbPalette)
    (width height : Nat) (version : Nat) (banner_text : Option String) :
    Except PyErr Canvas :=
  if version = 1 then
    create_portrait_post_version_1 env canvas heading_text newspaper content_type
      campaign_type colors width height banner_text
  else if version = 2 then
    create_portrait_post_version_2 env canvas heading_text newspaper content_type
      campaign_type colors width height banner_text
  else if version = 3 then
    create_portrait_post_version_3 env canvas heading_text newspaper content_type
      campaign_type colors width height banner_text
  else
    create_portrait_post_version_4 env canvas heading_text newspaper content_type
      campaign_type colors width height banner_text

/-- `StoryLayoutHandler._create_portrait_story_version_1` (story_layouts.py
lines 45–62). -/
def create_portrait_story_version_1 (env : RenderEnv) (canvas : Canvas)
    (heading_text newspaper content_type campaign_type : String) (colors : RgbPalette)
    (width height : Nat) (banner_text : Option String) : Except PyErr Canvas :=
  let canvas :=
    if campaign_type ≠ "logo_only" then
      add_campaign_banner_story env canvas colors content_type width height banner_text
    else canvas
  let canvas := add_newspaper_background_overlay canvas colors width height
  let canvas := add_newspaper_logo_bottom_story env canvas newspaper colors width height
  .ok (add_headline env canvas heading_text width height newspaper content_type)

/-- `StoryLayoutHandler._create_portrait_story_version_2` (lines 64–78). -/
def create_portrait_story_version_2 (env : RenderEnv) (canvas : Canvas)
    (heading_text newspaper content_type campaign_type : String) (colors : RgbPalette)
    (width height : Nat) (banner_text : Option String) : Except PyErr Canvas :=
  let canvas :=
    if campaign_type ≠ "logo_only" then
      add_campaign_banner_story env canvas colors content_type width height banner_text
    else canvas
  let canvas := add_headline_centered env canvas heading_text width height newspaper
    content_type
  .ok (add_newspaper_logo_bottom_story env canvas newspaper colors width height)

/-- `StoryLayoutHandler._create_portrait_story_version_3` (lines 80–94):
first call is the undefined `_add_newspaper_logo_top_left`. -/
def create_portrait_story_version_3 (env : RenderEnv) (canvas : Canvas)
    (heading_text newspaper content_type campaign_type : String) (colors : RgbPalette)
    (width height : Nat) (banner_text : Option String) : Except PyErr Canvas :=
  composerAttr "_add_newspaper_logo_top_left" (fun _ => .ok canvas)

/-- `StoryLayoutHandler._create_portrait_story_version_4` (lines 96–113):
after the overlay it calls the undefined `_add_newspaper_logo_top_center`. -/
def create_portrait_story_version_4 (env : RenderEnv) (canvas : Canvas)
    (heading_text newspaper content_type campaign_type : String) (colors : RgbPalette)
    (width height : Nat) (banner_text : Option String) : Except PyErr Canvas :=
  let canvas := add_newspaper_background_overlay canvas colors width height
  composerAttr "_add_newspaper_logo_top_center" (fun _ => .ok canvas)

/-- `StoryLayoutHandler.create_portrait_story` (lines 20–35). -/
def create_portrait_story (env : RenderEnv) (canvas : Canvas)
    (heading_text newspaper content_type campaign_type : String) (colors : RgbPalette)
    (width height : Nat) (version : Nat) (banner_text : Option String) :
    Except PyErr Canvas :=
  if version = 1 then
    create_portrait_story_version_1 env canvas heading_text newspaper content_type
      campaign_type colors width height banner_text
  else if version = 2 then
    create_portrait_story_version_2 env canvas heading_text newspaper content_type
      campaign_type colors width height banner_text
  else if version = 3 then
    create_portrait_story_version_3 env canvas heading_text newspaper content_type
      campaign_type colors width height banner_text
  else
    create_portrait_story_version_4 env canvas heading_text newspaper content_type
      campaign_type colors width height banner_text

/-- `LandscapeLayoutHandler.create_landscape_post` (landscape_layouts.py
lines 20–37); `create_landscape_story` delegates to it unchanged. -/
def create_landscape_post (env : RenderEnv) (canvas : Canvas)
    (heading_text newspaper content_type campaign_type : String) (colors : RgbPalette)
    (width height : Nat) (version : Nat) (banner_text : Option String) :
    Except PyErr Canvas :=
  let canvas :=
    if campaign_type ≠ "logo_only" then
      add_campaign_banner_landscape env canvas colors content_type width height banner_text
        version
    else canvas
  let canvas := create_split_screen_layout canvas colors width height version
  let canvas := add_headline_landscape env canvas heading_text width height newspaper
    content_type version
  .ok (add_newspaper_logo_landscape env canvas newspaper colors width height version)

/-! ## `create_branded_social_graphic` (graphic_composer.py lines 72–172) -/

/-- The background block of `create_branded_social_graphic` (lines
118–141): paste the processed photo layer, full-bleed or partial depending
on layout and version; skipped when no usable image path was supplied. -/
def paste_background (env : RenderEnv) (canvas : Canvas) (layout : String) (version : Nat)
    (target_width target_height : Nat) : Canvas :=
  match env.inputImage with
  | some loadResult =>
      if layout = "landscape" then
        let photo_width := (target_width * 6) / 10
        let bg := create_background_layer loadResult photo_width target_height
        if version = 1 then
          canvas.draw (.pasteBox (((target_width * 4) / 10 : Nat) : Int) 0
            bg.dims.1 bg.dims.2)
        else
          canvas.draw (.pasteBox 0 0 bg.dims.1 bg.dims.2)
      else if version = 2 then
        let bg := create_background_layer loadResult target_width target_height
        canvas.draw (.pasteBox 0 0 bg.dims.1 bg.dims.2)
      else
        let photo_height := (target_height * 80) / 100
        let bg := create_background_layer loadResult target_width photo_height
        canvas.draw (.pasteBox 0 0 bg.dims.1 bg.dims.2)
  | none => canvas

/-- The full static composition entry point.  The only validation is the
platform-specs check (line 109); the brand id is looked up through the
silently-defaulting color helper. -/
def create_branded_social_graphic (env : RenderEnv)
    (heading_text newspaper platform content_type layout campaign_type : String)
    (version : Nat) (banner_text : Option String) : Except PyErr Canvas :=
  match get_platform_specs platform content_type layout with
  | none => .error (.valueError "Invalid platform configuration")
  | some specs =>
    let colors := get_newspaper_colors_rgb newspaper
    let target_width := specs.width
    let target_height := specs.height
    let canvas : Canvas := ⟨target_width, target_height, colors.secondary, []⟩
    let canvas := paste_background env canvas layout version target_width target_height
    if content_type = "post" ∧ (layout = "portrait" ∨ layout = "square") then
      create_portrait_post env canvas heading_text newspaper content_type campaign_type
        colors target_width target_height version banner_text
    else if content_type = "story" then
      if layout = "portrait" ∨ layout = "square" then
        create_portrait_story env canvas heading_text newspaper content_type campaign_type
          colors target_width target_height version banner_text
      else
        create_landscape_post env canvas heading_text newspaper content_type campaign_type
          colors target_width target_height version banner_text
    else if layout = "landscape" then
      create_landscape_post env canvas heading_text newspaper content_type campaign_type
        colors target_width target_height version banner_text
    else
      .ok canvas

/-! ## `_apply_color_template` (graphic_composer.py lines 628–669) -/

/-- The recolor loop exactly as written: walk `logo.getdata()`, append one
output pixel per input pixel into `colored_data`. -/
def apply_color_template (colors : RgbPalette) (logo_data : List RGBA) : List RGBA :=
  logo_data.foldl
    (fun colored_data px =>
      if 0 < px.2.2.2 then
        let intensity : ℚ := ((px.1 : ℚ) + px.2.1 + px.2.2.1) / 3
        if 128 < intensity then
          colored_data ++ [(colors.primary.1, colors.primary.2.1, colors.primary.2.2,
            px.2.2.2)]
        else
          colored_data ++ [(colors.secondary.1, colors.secondary.2.1, colors.secondary.2.2,
            px.2.2.2)]
      else colored_data ++ [(0, 0, 0, 0)])
    []

/-- The per-pixel recolor rule: mean-of-RGB luma thresholded at 128,
primary above, secondary otherwise, alpha preserved; fully transparent
pixels stay `(0,0,0,0)`. -/
def recolorPixel (colors : RgbPalette) (px : RGBA) : RGBA :=
  if 0 < px.2.2.2 then
    if 128 < ((px.1 : ℚ) + px.2.1 + px.2.2.1) / 3 then
      (colors.primary.1, colors.primary.2.1, colors.primary.2.2, px.2.2.2)
    else
      (colors.secondary.1, colors.secondary.2.1, colors.secondary.2.2, px.2.2.2)
  else (0, 0, 0, 0)

/-! ## `create_motion_graphic` (video_generation.py lines 19–153) -/

/-- The codec-retry logic (lines 104–113): open a writer with `avc1`; only
if `video.isOpened()` is false, open once more with `mp4v`.  No success
check follows the second attempt. -/
def videoCodecAttempts (avc1Opens mp4vOpens : Bool) : List String × Bool :=
  if avc1Opens then (["avc1"], true) else (["avc1", "mp4v"], mp4vOpens)

/-- What `create_motion_graphic` hands back on its normal exit path. -/
structure MotionResult where
  outputPath : String
  triedCodecs : List String
  writerOpened : Bool
  frameCount : Nat
  deriving Repr, DecidableEq

/-- `create_motion_graphic`: validate brand and platform specs (line 56),
compose the two temporary layers with `campaign_type="logo_only"`
(lines 71–101), open the writer with the codec retry, write
`duration * 30` frames (a `cv2.VideoWriter.write` on an unopened writer
silently drops the frame), release, and return the output path. -/
def create_motion_graphic (env : RenderEnv)
    (heading_text newspaper platform content_type layout : String) (version : Nat)
    (duration : Nat) (avc1Opens mp4vOpens : Bool) (output_path : String) :
    Except PyErr MotionResult :=
  match get_brand_specs newspaper, get_platform_specs platform content_type layout with
  | some _, some _ =>
    match create_branded_social_graphic env heading_text newspaper platform content_type
        layout "logo_only" version none with
    | .error e => .error e
    | .ok _ =>
      match create_branded_social_graphic env "" newspaper platform content_type layout
          "logo_only" version none with
      | .error e => .error e
      | .ok _ =>
        let attempts := videoCodecAttempts avc1Opens mp4vOpens
        let fps := 30
        let total_frames := duration * fps
        .ok ⟨output_path, attempts.1, attempts.2, total_frames⟩
  | _, _ => .error (.valueError "Invalid specifications")

/-! ## Dimension preservation of the drawing pipeline -/

/-- `c'` has the same pixel dimensions as `c`. -/
def sameDims (c c' : Canvas) : Prop := c'.width = c.width ∧ c'.height = c.height

/-! ## Concrete render environments used in the verification scenarios -/

/-- A render environment with no input image, no logo file and a fixed
monospace-like font metric (bbox 100 px wide, 20 px tall for every
string).  Font metrics are external inputs, so any fixed choice is a
legitimate concrete instance. -/
def envNoAssets : RenderEnv :=
  { inputImage := none
    logoFileExists := false
    loadedLogo := none
    textSize := fun _ _ => (100, 20) }

/-- Placeholder used only to extract the canvas out of an `Except`. -/
def emptyCanvas : Canvas := ⟨0, 0, (0, 0, 0), []⟩

/-- The canvas produced by the LinkedIn landscape scenario used as the
concrete witness instance for the dimension claim. -/
def c3Canvas : Canvas :=
  (create_branded_social_graphic envNoAssets "Otsikko" "Kaleva" "linkedin" "post"
    "landscape" "logo_only" 2 none).toOption.getD emptyCanvas

/-! ## Lemmas and theorems -/

/-- The integer width test agrees with the rational reading of
`text_width > width * 0.8`. -/
lemma exceedsWidth_eq_rat (measureW : String → Nat) (width : Nat) (s : String) :
    exceedsWidth measureW width s
      = decide ((measureW s : ℚ) > (width : ℚ) * (4 / 5)) := by
  unfold exceedsWidth
  rw [decide_eq_decide]
  constructor
  · intro h
    have h' : (4 * width : ℚ) < (5 * measureW s : ℚ) := by exact_mod_cast h
    push_cast at h'
    nlinarith
  · intro h
    have h' : (4 * width : ℚ) < (5 * measureW s : ℚ) := by nlinarith
    exact_mod_cast h'

lemma wrapWords_foldl_flatten (exceeds : String → Bool) (words : List String) :
    ∀ st : List (List String) × List String,
      (words.foldl (wrapStep exceeds) st).1.flatten ++ (words.foldl (wrapStep exceeds) st).2
        = st.1.flatten ++ st.2 ++ words := by
  induction words with
  | nil => intro st; simp
  | cons w ws ih =>
    intro st
    rw [List.foldl_cons, ih]
    unfold wrapStep
    by_cases h1 : exceeds (joinWords (st.2 ++ [w])) = true
    · rw [if_pos h1]
      by_cases h2 : (st.2 ++ [w]).length > 1
      · rw [if_pos h2]
        simp
      · rw [if_neg h2]
        have hnil : st.2 = [] := by
          rw [List.length_append, List.length_singleton] at h2
          exact List.eq_nil_of_length_eq_zero (by omega)
        simp [hnil]
    · rw [if_neg h1]
      simp

/-- Every word of the input appears, in order, in exactly one produced line. -/
lemma wrapWords_flatten (exceeds : String → Bool) (words : List String) :
    (wrapWords exceeds words).flatten = words := by
  unfold wrapWords
  have h := wrapWords_foldl_flatten exceeds words ([], [])
  by_cases hne : (words.foldl (wrapStep exceeds) ([], [])).2 ≠ []
  · simpa [hne] using h
  · simp only [ne_eq, not_not] at hne
    rw [hne] at h
    simpa [hne] using h

/-- Invariant behind the width bound: every line the wrap closes with at
least two words passed the `exceeds` test negatively when its last word
was added. -/
lemma wrapWords_foldl_width (exceeds : String → Bool) (words : List String) :
    ∀ st : List (List String) × List String,
      (∀ l ∈ st.1, 2 ≤ l.length → exceeds (joinWords l) = false) →
      (2 ≤ st.2.length → exceeds (joinWords st.2) = false) →
      (∀ l ∈ (words.foldl (wrapStep exceeds) st).1, 2 ≤ l.length →
          exceeds (joinWords l) = false) ∧
      (2 ≤ (words.foldl (wrapStep exceeds) st).2.length →
          exceeds (joinWords (words.foldl (wrapStep exceeds) st).2) = false) := by
  induction words with
  | nil => intro st h1 h2; exact ⟨h1, h2⟩
  | cons w ws ih =>
    intro st h1 h2
    rw [List.foldl_cons]
    apply ih
    · intro l hl hlen
      unfold wrapStep at hl
      by_cases hx : exceeds (joinWords (st.2 ++ [w])) = true
      · rw [if_pos hx] at hl
        by_cases hlong : (st.2 ++ [w]).length > 1
        · rw [if_pos hlong] at hl
          rcases List.mem_append.1 hl with h | h
          · exact h1 l h hlen
          · rw [List.mem_singleton.1 h]
            exact h2 (by rw [← List.mem_singleton.1 h]; exact hlen)
        · rw [if_neg hlong] at hl
          rcases List.mem_append.1 hl with h | h
          · exact h1 l h hlen
          · exfalso
            rw [List.mem_singleton.1 h] at hlen
            rw [List.length_append, List.length_singleton] at hlen hlong
            omega
      · rw [if_neg hx] at hl
        exact h1 l hl hlen
    · intro hlen
      unfold wrapStep at hlen ⊢
      by_cases hx : exceeds (joinWords (st.2 ++ [w])) = true
      · rw [if_pos hx] at hlen ⊢
        by_cases hlong : (st.2 ++ [w]).length > 1
        · rw [if_pos hlong] at hlen
          exact absurd hlen (by simp)
        · rw [if_neg hlong] at hlen
          exact absurd hlen (by simp)
      · rw [if_neg hx] at hlen ⊢
        simp only [Bool.not_eq_true] at hx
        exact hx

/-- Every produced line with at least two words fails the `exceeds` test. -/
lemma wrapWords_multiword_fits (exceeds : String → Bool) (words : List String) :
    ∀ l ∈ wrapWords exceeds words, 2 ≤ l.length → exceeds (joinWords l) = false := by
  intro l hl hlen
  unfold wrapWords at hl
  have h := wrapWords_foldl_width exceeds words ([], [])
    (by intro l hl; simp at hl) (by intro h; simp at h)
  by_cases hne : (words.foldl (wrapStep exceeds) ([], [])).2 ≠ []
  · rw [if_pos hne] at hl
    rcases List.mem_append.1 hl with hm | hm
    · exact h.1 l hm hlen
    · rw [List.mem_singleton.1 hm]
      exact h.2 (by rw [← List.mem_singleton.1 hm]; exact hlen)
  · rw [if_neg hne] at hl
    exact h.1 l hl hlen

lemma smart_resize_wide_newW (imgW imgH targetW targetH : Nat)
    (hih : 0 < imgH) (hth : 0 < targetH)
    (hr : (imgW : ℚ) / imgH > (targetW : ℚ) / targetH) :
    targetW ≤ ⌊(targetH : ℚ) * ((imgW : ℚ) / imgH)⌋₊ := by
  apply Nat.le_floor
  have hth' : (0 : ℚ) < targetH := by exact_mod_cast hth
  calc (targetW : ℚ) = targetH * ((targetW : ℚ) / targetH) := by
        field_simp
    _ ≤ targetH * ((imgW : ℚ) / imgH) := by
        exact mul_le_mul_of_nonneg_left (le_of_lt hr) (le_of_lt hth')

lemma smart_resize_tall_newH (imgW imgH targetW targetH : Nat)
    (hiw : 0 < imgW) (hih : 0 < imgH) (htw : 0 < targetW) (hth : 0 < targetH)
    (hr : ¬ ((imgW : ℚ) / imgH > (targetW : ℚ) / targetH)) :
    targetH ≤ ⌊(targetW : ℚ) / ((imgW : ℚ) / imgH)⌋₊ := by
  apply Nat.le_floor
  push_neg at hr
  have hiw' : (0 : ℚ) < imgW := by exact_mod_cast hiw
  have hih' : (0 : ℚ) < imgH := by exact_mod_cast hih
  have hth' : (0 : ℚ) < targetH := by exact_mod_cast hth
  have hq : (0 : ℚ) < (imgW : ℚ) / imgH := div_pos hiw' hih'
  rw [le_div_iff₀ hq, ← mul_div_assoc, div_le_iff₀ hih']
  rw [div_le_div_iff hih' hth'] at hr
  rw [mul_comm]
  exact hr

/-- For every positive source and target size, the smart-resize plan crops
to exactly the target dimensions and its crop box stays inside the resized
image (fill-and-center-crop, no letterbox padding). -/
lemma smart_resize_exact (imgW imgH targetW targetH : Nat)
    (hiw : 0 < imgW) (hih : 0 < imgH) (htw : 0 < targetW) (hth : 0 < targetH) :
    (smart_resize imgW imgH targetW targetH).dims = (targetW, targetH) ∧
    (smart_resize imgW imgH targetW targetH).cropInBounds := by
  unfold smart_resize
  by_cases hr : (imgW : ℚ) / imgH > (targetW : ℚ) / targetH
  · rw [if_pos hr]
    have hW := smart_resize_wide_newW imgW imgH targetW targetH hih hth hr
    constructor
    · simp [ResizePlan.dims]
    · constructor
      · simp only
        omega
      · simp [ResizePlan.cropInBounds]
  · rw [if_neg hr]
    have hH := smart_resize_tall_newH imgW imgH targetW targetH hiw hih htw hth hr
    constructor
    · simp [ResizePlan.dims]
    · constructor
      · simp [ResizePlan.cropInBounds]
      · simp only
        omega

/-- The gradient is monotone darker downwards. -/
lemma gradientRowValue_antitone (height y₁ y₂ : Nat) (h : y₁ ≤ y₂) :
    gradientRowValue height y₂ ≤ gradientRowValue height y₁ := by
  unfold gradientRowValue
  apply Int.floor_le_floor
  rcases Nat.eq_zero_or_pos height with h0 | hpos
  · subst h0; simp
  · have hh : (0 : ℚ) < height := by exact_mod_cast hpos
    have hdiv : (y₁ : ℚ) / height ≤ (y₂ : ℚ) / height :=
      (div_le_div_right hh).mpr (by exact_mod_cast h)
    linarith

/-- The top gradient row is gray 240; every row of the lower half is at
most 220, so the fallback really is lighter at the top and darker at the
bottom. -/
lemma gradientRowValue_top_bottom (height : Nat) (h2 : 2 ≤ height) :
    gradientRowValue height 0 = 240 ∧ gradientRowValue height (height - 1) ≤ 220 := by
  constructor
  · unfold gradientRowValue
    norm_num
  · unfold gradientRowValue
    have hh : (0 : ℚ) < height := by exact_mod_cast (by omega : 0 < height)
    have hcast : ((height - 1 : Nat) : ℚ) = (height : ℚ) - 1 := by
      have : (1 : Nat) ≤ height := by omega
      push_cast [this]
      ring
    have hq : (20 : ℚ) ≤ (((height - 1 : Nat) : ℚ) / height) * 40 := by
      rw [hcast]
      rw [div_mul_eq_mul_div, le_div_iff hh]
      have h2' : (2 : ℚ) ≤ height := by exact_mod_cast h2
      nlinarith
    have : (240 : ℚ) - (((height - 1 : Nat) : ℚ) / height) * 40 ≤ 220 := by linarith
    calc ⌊(240 : ℚ) - (((height - 1 : Nat) : ℚ) / height) * 40⌋ ≤
          ⌊(220 : ℚ)⌋ := Int.floor_le_floor this
      _ = 220 := by norm_num

@[simp] lemma Canvas.draw_width (c : Canvas) (op : DrawOp) : (c.draw op).width = c.width := rfl

@[simp] lemma Canvas.draw_height (c : Canvas) (op : DrawOp) : (c.draw op).height = c.height := rfl

@[simp] lemma Canvas.drawAll_width (c : Canvas) (l : List DrawOp) :
    (c.drawAll l).width = c.width := rfl

@[simp] lemma Canvas.drawAll_height (c : Canvas) (l : List DrawOp) :
    (c.drawAll l).height = c.height := rfl

/-- The strings drawn on the canvas, in drawing order. -/
def Canvas.textStrings (c : Canvas) : List String :=
  c.ops.filterMap fun op =>
    match op with
    | .textDraw _ _ s _ _ => some s
    | _ => none

lemma apply_color_template_foldl (colors : RgbPalette) (logo_data : List RGBA) :
    ∀ acc : List RGBA,
      logo_data.foldl
        (fun colored_data px =>
          if 0 < px.2.2.2 then
            let intensity : ℚ := ((px.1 : ℚ) + px.2.1 + px.2.2.1) / 3
            if 128 < intensity then
              colored_data ++ [(colors.primary.1, colors.primary.2.1, colors.primary.2.2,
                px.2.2.2)]
            else
              colored_data ++ [(colors.secondary.1, colors.secondary.2.1,
                colors.secondary.2.2, px.2.2.2)]
          else colored_data ++ [(0, 0, 0, 0)]) acc
        = acc ++ logo_data.map (recolorPixel colors) := by
  induction logo_data with
  | nil => intro acc; simp
  | cons px rest ih =>
    intro acc
    rw [List.foldl_cons, ih, List.map_cons]
    unfold recolorPixel
    by_cases ha : 0 < px.2.2.2
    · rw [if_pos ha, if_pos ha]
      by_cases hi : 128 < ((px.1 : ℚ) + px.2.1 + px.2.2.1) / 3
      · rw [if_pos hi, if_pos hi]
        simp
      · rw [if_neg hi, if_neg hi]
        simp
    · rw [if_neg ha, if_neg ha]
      simp

/-- The loop is the pointwise map of the per-pixel rule. -/
lemma apply_color_template_eq_map (colors : RgbPalette) (logo_data : List RGBA) :
    apply_color_template colors logo_data = logo_data.map (recolorPixel colors) := by
  unfold apply_color_template
  simpa using apply_color_template_foldl colors logo_data []

lemma sameDims_trans {a b c : Canvas} (h1 : sameDims a b) (h2 : sameDims b c) :
    sameDims a c := ⟨h2.1.trans h1.1, h2.2.trans h1.2⟩

lemma dims_add_semi_transparent_overlay (canvas : Canvas) (colors : RgbPalette)
    (w h : Nat) : sameDims canvas (add_semi_transparent_overlay canvas colors w h) :=
  ⟨rfl, rfl⟩

lemma dims_add_newspaper_background_overlay (canvas : Canvas) (colors : RgbPalette)
    (w h : Nat) : sameDims canvas (add_newspaper_background_overlay canvas colors w h) :=
  ⟨rfl, rfl⟩

lemma dims_add_campaign_banner (env : RenderEnv) (canvas : Canvas) (colors : RgbPalette)
    (ct : String) (w h : Nat) (bt : Option String) :
    sameDims canvas (add_campaign_banner env canvas colors ct w h bt) := ⟨rfl, rfl⟩

lemma dims_add_campaign_banner_story (env : RenderEnv) (canvas : Canvas)
    (colors : RgbPalette) (ct : String) (w h : Nat) (bt : Option String) :
    sameDims canvas (add_campaign_banner_story env canvas colors ct w h bt) := ⟨rfl, rfl⟩

lemma dims_add_campaign_banner_landscape (env : RenderEnv) (canvas : Canvas)
    (colors : RgbPalette) (ct : String) (w h : Nat) (bt : Option String) (v : Nat) :
    sameDims canvas (add_campaign_banner_landscape env canvas colors ct w h bt v) := by
  unfold add_campaign_banner_landscape sameDims
  constructor <;> rfl

lemma dims_create_split_screen_layout (canvas : Canvas) (colors : RgbPalette)
    (w h v : Nat) : sameDims canvas (create_split_screen_layout canvas colors w h v) := by
  unfold create_split_screen_layout sameDims
  split <;> exact ⟨rfl, rfl⟩

lemma dims_add_newspaper_logo_bottom_story (env : RenderEnv) (canvas : Canvas)
    (n : String) (colors : RgbPalette) (w h : Nat) :
    sameDims canvas (add_newspaper_logo_bottom_story env canvas n colors w h) := by
  unfold add_newspaper_logo_bottom_story sameDims
  repeat' split
  all_goals exact ⟨rfl, rfl⟩

lemma dims_add_newspaper_logo_bottom_left (env : RenderEnv) (canvas : Canvas)
    (n : String) (colors : RgbPalette) (w h : Nat) :
    sameDims canvas (add_newspaper_logo_bottom_left env canvas n colors w h) := by
  unfold add_newspaper_logo_bottom_left sameDims
  repeat' split
  all_goals exact ⟨rfl, rfl⟩

lemma dims_add_newspaper_logo_landscape (env : RenderEnv) (canvas : Canvas)
    (n : String) (colors : RgbPalette) (w h v : Nat) :
    sameDims canvas (add_newspaper_logo_landscape env canvas n colors w h v) := by
  unfold add_newspaper_logo_landscape sameDims
  repeat' split
  all_goals exact ⟨rfl, rfl⟩

lemma dims_add_headline (env : RenderEnv) (canvas : Canvas) (t : String) (w h : Nat)
    (n ct : String) : sameDims canvas (add_headline env canvas t w h n ct) := ⟨rfl, rfl⟩

lemma dims_add_headline_top (env : RenderEnv) (canvas : Canvas) (t : String) (w h : Nat)
    (n ct : String) : sameDims canvas (add_headline_top env canvas t w h n ct) := ⟨rfl, rfl⟩

lemma dims_add_headline_centered (env : RenderEnv) (canvas : Canvas) (t : String)
    (w h : Nat) (n ct : String) :
    sameDims canvas (add_headline_centered env canvas t w h n ct) := ⟨rfl, rfl⟩

lemma dims_add_headline_landscape (env : RenderEnv) (canvas : Canvas) (t : String)
    (w h : Nat) (n ct : String) (v : Nat) :
    sameDims canvas (add_headline_landscape env canvas t w h n ct v) := ⟨rfl, rfl⟩

lemma dims_add_newspaper_logo_bottom (env : RenderEnv) (canvas : Canvas) (n : String)
    (colors : RgbPalette) (w h : Nat) {c' : Canvas}
    (hk : add_newspaper_logo_bottom env canvas n colors w h = .ok c') :
    sameDims canvas c' := by
  unfold add_newspaper_logo_bottom at hk
  split at hk
  · split at hk
    · rw [Except.ok.injEq] at hk
      subst hk
      exact ⟨rfl, rfl⟩
    · rw [Except.ok.injEq] at hk
      subst hk
      exact ⟨rfl, rfl⟩
  · cases hk

lemma callWithKwargs_ok {acc kw : List String} {x c' : Canvas}
    (h : callWithKwargs acc kw (fun _ => .ok x) = .ok c') : c' = x := by
  unfold callWithKwargs at h
  split at h
  · exact (Except.ok.injEq _ _ ▸ h).symm
  · cases h

lemma dims_bind {c c' : Canvas} {step : Except PyErr Canvas}
    {f : Canvas → Except PyErr Canvas}
    (hstep : ∀ c1, step = .ok c1 → sameDims c c1)
    (hf : ∀ c1, ∀ c2, f c1 = .ok c2 → sameDims c1 c2)
    (hk : step.bind f = .ok c') : sameDims c c' := by
  cases hs : step with
  | error e =>
    rw [hs] at hk
    cases hk
  | ok c1 =>
    rw [hs] at hk
    simp only [Except.bind] at hk
    exact sameDims_trans (hstep c1 hs) (hf c1 c' hk)

lemma dims_post_banner_step (env : RenderEnv) (canvas : Canvas) (colors : RgbPalette)
    (ct camp : String) (w h : Nat) (bt : Option String) :
    ∀ c1, (if camp ≠ "logo_only" then
        callWithKwargs addCampaignBannerParams ["version"]
          (fun _ => .ok (add_campaign_banner env canvas colors ct w h bt))
      else .ok canvas) = .ok c1 → sameDims canvas c1 := by
  intro c1 hstep
  split at hstep
  · have := callWithKwargs_ok hstep
    subst this
    exact dims_add_campaign_banner env canvas colors ct w h bt
  · rw [Except.ok.injEq] at hstep
    subst hstep
    exact ⟨rfl, rfl⟩

lemma dims_create_portrait_post_version_1 (env : RenderEnv) (canvas : Canvas)
    (ht n ct camp : String) (colors : RgbPalette) (w h : Nat) (bt : Option String)
    {c' : Canvas}
    (hk : create_portrait_post_version_1 env canvas ht n ct camp colors w h bt = .ok c') :
    sameDims canvas c' := by
  unfold create_portrait_post_version_1 at hk
  refine dims_bind (dims_post_banner_step env canvas colors ct camp w h bt) ?_ hk
  intro c1 c2 h2
  refine sameDims_trans (dims_add_semi_transparent_overlay c1 colors w h) ?_
  refine dims_bind
    (fun c3 h3 => dims_add_newspaper_logo_bottom env _ n colors w h h3) ?_ h2
  intro c3 c4 h4
  rw [Except.ok.injEq] at h4
  subst h4
  exact dims_add_headline env c3 ht w h n ct

lemma dims_create_portrait_post_version_2 (env : RenderEnv) (canvas : Canvas)
    (ht n ct camp : String) (colors : RgbPalette) (w h : Nat) (bt : Option String)
    {c' : Canvas}
    (hk : create_portrait_post_version_2 env canvas ht n ct camp colors w h bt = .ok c') :
    sameDims canvas c' := by
  unfold create_portrait_post_version_2 at hk
  refine dims_bind (dims_post_banner_step env canvas colors ct camp w h bt) ?_ hk
  intro c1 c2 h2
  rw [Except.ok.injEq] at h2
  subst h2
  refine sameDims_trans (dims_add_headline_top env c1 ht w h n ct) ?_
  exact dims_add_newspaper_logo_bottom_left env _ n colors w h

lemma dims_create_portrait_post_version_3 (env : RenderEnv) (canvas : Canvas)
    (ht n ct camp : String) (colors : RgbPalette) (w h : Nat) (bt : Option String)
    {c' : Canvas}
    (hk : create_portrait_post_version_3 env canvas ht n ct camp colors w h bt = .ok c') :
    sameDims canvas c' := by
  have hred : create_portrait_post_version_3 env canvas ht n ct camp colors w h bt
      = .error (.attributeError "_add_newspaper_logo_top_left") := rfl
  rw [hred] at hk
  cases hk

lemma dims_create_portrait_post_version_4 (env : RenderEnv) (canvas : Canvas)
    (ht n ct camp : String) (colors : RgbPalette) (w h : Nat) (bt : Option String)
    {c' : Canvas}
    (hk : create_portrait_post_version_4 env canvas ht n ct camp colors w h bt = .ok c') :
    sameDims canvas c' := by
  have hred : create_portrait_post_version_4 env canvas ht n ct camp colors w h bt
      = .error (.attributeError "_add_newspaper_logo_top_center") := rfl
  rw [hred] at hk
  cases hk

lemma dims_create_portrait_post (env : RenderEnv) (canvas : Canvas)
    (ht n ct camp : String) (colors : RgbPalette) (w h v : Nat) (bt : Option String)
    {c' : Canvas}
    (hk : create_portrait_post env canvas ht n ct camp colors w h v bt = .ok c') :
    sameDims canvas c' := by
  unfold create_portrait_post at hk
  split at hk
  · exact dims_create_portrait_post_version_1 env canvas ht n ct camp colors w h bt hk
  · split at hk
    · exact dims_create_portrait_post_version_2 env canvas ht n ct camp colors w h bt hk
    · split at hk
      · exact dims_create_portrait_post_version_3 env canvas ht n ct camp colors w h bt hk
      · exact dims_create_portrait_post_version_4 env canvas ht n ct camp colors w h bt hk

lemma dims_create_portrait_story_version_1 (env : RenderEnv) (canvas : Canvas)
    (ht n ct camp : String) (colors : RgbPalette) (w h : Nat) (bt : Option String)
    {c' : Canvas}
    (hk : create_portrait_story_version_1 env canvas ht n ct camp colors w h bt = .ok c') :
    sameDims canvas c' := by
  unfold create_portrait_story_version_1 at hk
  rw [Except.ok.injEq] at hk
  subst hk
  have h1 : sameDims canvas
      (if camp ≠ "logo_only" then
        add_campaign_banner_story env canvas colors ct w h bt else canvas) := by
    split
    · exact dims_add_campaign_banner_story env canvas colors ct w h bt
    · exact ⟨rfl, rfl⟩
  refine sameDims_trans h1 ?_
  refine sameDims_trans (dims_add_newspaper_background_overlay _ colors w h) ?_
  refine sameDims_trans (dims_add_newspaper_logo_bottom_story env _ n colors w h) ?_
  exact dims_add_headline env _ ht w h n ct

lemma dims_create_portrait_story_version_2 (env : RenderEnv) (canvas : Canvas)
    (ht n ct camp : String) (colors : RgbPalette) (w h : Nat) (bt : Option String)
    {c' : Canvas}
    (hk : create_portrait_story_version_2 env canvas ht n ct camp colors w h bt = .ok c') :
    sameDims canvas c' := by
  unfold create_portrait_story_version_2 at hk
  rw [Except.ok.injEq] at hk
  subst hk
  have h1 : sameDims canvas
      (if camp ≠ "logo_only" then
        add_campaign_banner_story env canvas colors ct w h bt else canvas) := by
    split
    · exact dims_add_campaign_banner_story env canvas colors ct w h bt
    · exact ⟨rfl, rfl⟩
  refine sameDims_trans h1 ?_
  refine sameDims_trans (dims_add_headline_centered env _ ht w h n ct) ?_
  exact dims_add_newspaper_logo_bottom_story env _ n colors w h

lemma dims_create_portrait_story_version_3 (env : RenderEnv) (canvas : Canvas)
    (ht n ct camp : String) (colors : RgbPalette) (w h : Nat) (bt : Option String)
    {c' : Canvas}
    (hk : create_portrait_story_version_3 env canvas ht n ct camp colors w h bt = .ok c') :
    sameDims canvas c' := by
  have hred : create_portrait_story_version_3 env canvas ht n ct camp colors w h bt
      = .error (.attributeError "_add_newspaper_logo_top_left") := rfl
  rw [hred] at hk
  cases hk

lemma dims_create_portrait_story_version_4 (env : RenderEnv) (canvas : Canvas)
    (ht n ct camp : String) (colors : RgbPalette) (w h : Nat) (bt : Option String)
    {c' : Canvas}
    (hk : create_portrait_story_version_4 env canvas ht n ct camp colors w h bt = .ok c') :
    sameDims canvas c' := by
  have hred : create_portrait_story_version_4 env canvas ht n ct camp colors w h bt
      = .error (.attributeError "_add_newspaper_logo_top_center") := rfl
  rw [hred] at hk
  cases hk

lemma dims_create_portrait_story (env : RenderEnv) (canvas : Canvas)
    (ht n ct camp : String) (colors : RgbPalette) (w h v : Nat) (bt : Option String)
    {c' : Canvas}
    (hk : create_portrait_story env canvas ht n ct camp colors w h v bt = .ok c') :
    sameDims canvas c' := by
  unfold create_portrait_story at hk
  split at hk
  · exact dims_create_portrait_story_version_1 env canvas ht n ct camp colors w h bt hk
  · split at hk
    · exact dims_create_portrait_story_version_2 env canvas ht n ct camp colors w h bt hk
    · split at hk
      · exact dims_create_portrait_story_version_3 env canvas ht n ct camp colors w h bt hk
      · exact dims_create_portrait_story_version_4 env canvas ht n ct camp colors w h bt hk

lemma dims_create_landscape_post (env : RenderEnv) (canvas : Canvas)
    (ht n ct camp : String) (colors : RgbPalette) (w h v : Nat) (bt : Option String)
    {c' : Canvas}
    (hk : create_landscape_post env canvas ht n ct camp colors w h v bt = .ok c') :
    sameDims canvas c' := by
  unfold create_landscape_post at hk
  rw [Except.ok.injEq] at hk
  subst hk
  have h1 : sameDims canvas
      (if camp ≠ "logo_only" then
        add_campaign_banner_landscape env canvas colors ct w h bt v else canvas) := by
    split
    · exact dims_add_campaign_banner_landscape env canvas colors ct w h bt v
    · exact ⟨rfl, rfl⟩
  refine sameDims_trans h1 ?_
  refine sameDims_trans (dims_create_split_screen_layout _ colors w h v) ?_
  refine sameDims_trans (dims_add_headline_landscape env _ ht w h n ct v) ?_
  exact dims_add_newspaper_logo_landscape env _ n colors w h v

lemma dims_paste_background (env : RenderEnv) (canvas : Canvas) (layout : String)
    (v tw th : Nat) : sameDims canvas (paste_background env canvas layout v tw th) := by
  unfold paste_background sameDims
  repeat' split
  all_goals exact ⟨rfl, rfl⟩

/-- Any canvas `create_branded_social_graphic` returns has exactly the
dimensions of the matched platform spec: the pipeline only draws into the
canvas, it never resizes it. -/
lemma dims_create_branded_social_graphic (env : RenderEnv)
    (ht n p ct l camp : String) (v : Nat) (bt : Option String)
    {specs : PlatformSpec} {c' : Canvas}
    (hspec : get_platform_specs p ct l = some specs)
    (hk : create_branded_social_graphic env ht n p ct l camp v bt = .ok c') :
    c'.width = specs.width ∧ c'.height = specs.height := by
  unfold create_branded_social_graphic at hk
  split at hk
  · rename_i heq
    rw [hspec] at heq
    cases heq
  · rename_i specs2 heq
    rw [hspec, Option.some.injEq] at heq
    subst heq
    have hbase : sameDims
        (⟨specs.width, specs.height, (get_newspaper_colors_rgb n).secondary, []⟩ : Canvas)
        (paste_background env
          ⟨specs.width, specs.height, (get_newspaper_colors_rgb n).secondary, []⟩ l v
          specs.width specs.height) :=
      dims_paste_background env _ l v specs.width specs.height
    split at hk
    · have := dims_create_portrait_post env _ ht n ct camp
        (get_newspaper_colors_rgb n) specs.width specs.height v bt hk
      exact ⟨(this.1.trans hbase.1 :), (this.2.trans hbase.2 :)⟩
    · split at hk
      · split at hk
        · have := dims_create_portrait_story env _ ht n ct camp
            (get_newspaper_colors_rgb n) specs.width specs.height v bt hk
          exact ⟨(this.1.trans hbase.1 :), (this.2.trans hbase.2 :)⟩
        · have := dims_create_landscape_post env _ ht n ct camp
            (get_newspaper_colors_rgb n) specs.width specs.height v bt hk
          exact ⟨(this.1.trans hbase.1 :), (this.2.trans hbase.2 :)⟩
      · split at hk
        · have := dims_create_landscape_post env _ ht n ct camp
            (get_newspaper_colors_rgb n) specs.width specs.height v bt hk
          exact ⟨(this.1.trans hbase.1 :), (this.2.trans hbase.2 :)⟩
        · rw [Except.ok.injEq] at hk
          subst hk
          exact ⟨hbase.1, hbase.2⟩


/-! ## Claim theorems -/

/-- C1: the spec claims every template version 1–4 of the post and story
portrait/square layouts runs to completion for both banner modes.  The
code contradicts this: post versions 1–2 pass the keyword `version=` to
`_add_campaign_banner`, whose signature does not accept it (TypeError),
and versions 3–4 of both handlers call composer methods that are not
defined on `GraphicComposer` (AttributeError).  This theorem evaluates the
pipeline at those failing inputs. -/
theorem C1_layout_versions_raise :
    create_branded_social_graphic envNoAssets "Otsikko" "Kaleva" "instagram" "post"
        "square" "elections_2025" 1 none
      = .error (.typeError "unexpected keyword argument") ∧
    create_branded_social_graphic envNoAssets "Otsikko" "Kaleva" "instagram" "post"
        "square" "elections_2025" 2 none
      = .error (.typeError "unexpected keyword argument") ∧
    create_branded_social_graphic envNoAssets "Otsikko" "Kaleva" "instagram" "post"
        "portrait" "logo_only" 3 none
      = .error (.attributeError "_add_newspaper_logo_top_left") ∧
    create_branded_social_graphic envNoAssets "Otsikko" "Kaleva" "instagram" "post"
        "portrait" "logo_only" 4 none
      = .error (.attributeError "_add_newspaper_logo_top_center") ∧
    create_branded_social_graphic envNoAssets "Otsikko" "Kaleva" "instagram" "story"
        "portrait" "logo_only" 3 none
      = .error (.attributeError "_add_newspaper_logo_top_left") ∧
    create_branded_social_graphic envNoAssets "Otsikko" "Kaleva" "instagram" "story"
        "portrait" "logo_only" 4 none
      = .error (.attributeError "_add_newspaper_logo_top_center") :=
  ⟨rfl, rfl, rfl, rfl, rfl, rfl⟩

/-- C2 counterexample: requesting the unknown brand "Helsingin Sanomat"
does not raise any configuration error — the color lookup silently falls
back to the Kaleva palette and the render completes. -/
theorem C2_counterexample_unknown_brand_not_fatal :
    get_newspaper_colors_rgb "Helsingin Sanomat" = get_newspaper_colors_rgb "Kaleva" ∧
    (get_newspaper_colors_rgb "Helsingin Sanomat").primary = (255, 140, 48) ∧
    exceptIsOk (create_branded_social_graphic envNoAssets "Otsikko" "Helsingin Sanomat"
      "linkedin" "post" "landscape" "logo_only" 2 none) = true :=
  ⟨rfl, by decide, rfl⟩

/-- C2 amended: for every brand id absent from `NEWSPAPER_COLORS`,
`compose_static` raises no error on account of the brand: the color
lookup yields exactly Kaleva's palette and the render proceeds with it
(only the platform triple is validated). -/
theorem C2_amended_unknown_brand_defaults_to_kaleva (newspaper : String)
    (h : NEWSPAPER_COLORS.lookup newspaper = none) :
    get_newspaper_colors_rgb newspaper = get_newspaper_colors_rgb "Kaleva" ∧
    exceptIsOk (create_branded_social_graphic envNoAssets "Otsikko" newspaper
      "linkedin" "post" "landscape" "logo_only" 2 none) = true := by
  constructor
  · unfold get_newspaper_colors_rgb get_newspaper_colors
    rw [h]
    rfl
  · rfl

/-- C2 witness: the amended statement at the concrete brand id
"Helsingin Sanomat". -/
theorem C2_amended_witness :
    get_newspaper_colors_rgb "Helsingin Sanomat" = get_newspaper_colors_rgb "Kaleva" ∧
    exceptIsOk (create_branded_social_graphic envNoAssets "Otsikko" "Helsingin Sanomat"
      "linkedin" "post" "landscape" "logo_only" 2 none) = true :=
  C2_amended_unknown_brand_defaults_to_kaleva "Helsingin Sanomat" rfl

/-- C3: for every supported platform triple, any canvas
`create_branded_social_graphic` returns has exactly the registered
width × height — the pipeline's drawing operations never resize the
canvas itself. -/
theorem C3_canvas_dimensions_match_platform_spec (env : RenderEnv)
    (ht n p ct l camp : String) (v : Nat) (bt : Option String)
    (specs : PlatformSpec) (c' : Canvas)
    (hspec : get_platform_specs p ct l = some specs)
    (hk : create_branded_social_graphic env ht n p ct l camp v bt = .ok c') :
    c'.width = specs.width ∧ c'.height = specs.height :=
  dims_create_branded_social_graphic env ht n p ct l camp v bt hspec hk

/-- C3 witness: the LinkedIn landscape scenario returns a canvas and the
theorem pins its dimensions to 1200 × 627. -/
theorem C3_witness : c3Canvas.width = 1200 ∧ c3Canvas.height = 627 :=
  C3_canvas_dimensions_match_platform_spec envNoAssets "Otsikko" "Kaleva" "linkedin"
    "post" "landscape" "logo_only" 2 none ⟨1200, 627, "1.91:1", ["PNG", "JPEG"]⟩
    c3Canvas rfl rfl

/-- C8: the spec claims a missing logo file degrades to a drop-shadowed
text logo without raising.  The fallback branch of
`_add_newspaper_logo_bottom` (the post variant) references the unbound
local `draw` and raises `NameError`, aborting the whole render; the story
variant, which does bind `draw`, draws the intended shadowed text —
evidence that the post variant is a slip. -/
theorem C8_missing_logo_post_fallback_raises :
    add_newspaper_logo_bottom envNoAssets ⟨1080, 1080, (255, 255, 255), []⟩ "Kaleva"
        (get_newspaper_colors_rgb "Kaleva") 1080 1080
      = .error (.nameError "draw") ∧
    create_branded_social_graphic envNoAssets "Otsikko" "Kaleva" "instagram" "post"
        "square" "logo_only" 1 none
      = .error (.nameError "draw") ∧
    (add_newspaper_logo_bottom_story envNoAssets ⟨1080, 1920, (255, 255, 255), []⟩
        "Kaleva" (get_newspaper_colors_rgb "Kaleva") 1080 1920).textStrings
      = ["Kaleva", "Kaleva"] :=
  ⟨rfl, rfl, rfl⟩

/-- C9 counterexample: when both codecs fail to open,
`create_motion_graphic` does not fail — it writes every frame into the
unopened writer (each write is silently dropped) and still returns the
output path as a success. -/
theorem C9_counterexample_both_codecs_fail_still_success :
    create_motion_graphic envNoAssets "Otsikko" "Kaleva" "linkedin" "post" "landscape"
      2 3 false false "out.mp4"
      = .ok ⟨"out.mp4", ["avc1", "mp4v"], false, 90⟩ :=
  rfl

/-- C9 amended: the encoder is retried exactly once with `mp4v` when
`avc1` fails to open; if both fail no error is raised and the output path
is still returned as a successful result (with the writer closed and all
frames dropped). -/
theorem C9_amended_retry_once_then_return_success (b b1 b2 : Bool) :
    videoCodecAttempts true b = (["avc1"], true) ∧
    videoCodecAttempts false b = (["avc1", "mp4v"], b) ∧
    create_motion_graphic envNoAssets "Otsikko" "Kaleva" "linkedin" "post" "landscape"
        2 3 b1 b2 "out.mp4"
      = .ok ⟨"out.mp4", (videoCodecAttempts b1 b2).1, (videoCodecAttempts b1 b2).2, 90⟩ :=
  ⟨rfl, rfl, rfl⟩

/-- C10: every banner routine (post, story and landscape variants) renders
`pyUpper` of the supplied text, substituting the fixed default
"ALUE- JA KUNTA-VAALIT 2025" whenever the supplied text is `None` or
empty. -/
theorem C10_banner_text_uppercased_with_default (env : RenderEnv) (canvas : Canvas)
    (colors : RgbPalette) (ct : String) (w h v : Nat) (bt : Option String) :
    (add_campaign_banner env canvas colors ct w h bt).textStrings
        = canvas.textStrings ++ [pyUpper (resolveBannerText bt)] ∧
    (add_campaign_banner_story env canvas colors ct w h bt).textStrings
        = canvas.textStrings ++ [pyUpper (resolveBannerText bt)] ∧
    (add_campaign_banner_landscape env canvas colors ct w h bt v).textStrings
        = canvas.textStrings ++ [pyUpper (resolveBannerText bt)] ∧
    resolveBannerText none = "ALUE- JA KUNTA-VAALIT 2025" ∧
    resolveBannerText (some "") = "ALUE- JA KUNTA-VAALIT 2025" ∧
    pyUpper (resolveBannerText none) = "ALUE- JA KUNTA-VAALIT 2025" := by
  refine ⟨?_, ?_, ?_, rfl, rfl, by decide⟩
  · unfold add_campaign_banner
    simp [Canvas.textStrings, Canvas.draw, List.filterMap_append]
  · unfold add_campaign_banner_story
    simp [Canvas.textStrings, Canvas.draw, List.filterMap_append]
  · unfold add_campaign_banner_landscape
    simp [Canvas.textStrings, Canvas.draw, List.filterMap_append]


/-- C4: for every loaded image of positive dimensions the background layer
is exactly the requested target size, produced by fill-and-center-crop
whose crop box stays inside the resized image (no letterbox strips); and
for a missing or unloadable image the result is the deterministic vertical
gradient of exactly the target size, monotonically darker towards the
bottom (240 gray at the top row, at most 220 at the last row), instead of
an exception. -/
theorem C4_background_layer_size_and_gradient_fallback (iw ih tw th : Nat)
    (hiw : 0 < iw) (hih : 0 < ih) (htw : 0 < tw) (hth : 2 ≤ th) :
    (create_background_layer (some (iw, ih)) tw th).dims = (tw, th) ∧
    (smart_resize iw ih tw th).cropInBounds ∧
    (create_background_layer none tw th).dims = (tw, th) ∧
    (∀ y₁ y₂, y₁ ≤ y₂ → gradientRowValue th y₂ ≤ gradientRowValue th y₁) ∧
    gradientRowValue th 0 = 240 ∧ gradientRowValue th (th - 1) ≤ 220 := by
  have hth' : 0 < th := by omega
  have hs := smart_resize_exact iw ih tw th hiw hih htw hth'
  exact ⟨hs.1, hs.2, rfl, fun y₁ y₂ hy => gradientRowValue_antitone th y₁ y₂ hy,
    (gradientRowValue_top_bottom th hth).1, (gradientRowValue_top_bottom th hth).2⟩

/-- C4 witness: a 4000 × 3000 source photo fitted to the 1080 × 1350
portrait canvas. -/
theorem C4_witness :
    (create_background_layer (some (4000, 3000)) 1080 1350).dims = (1080, 1350) ∧
    (smart_resize 4000 3000 1080 1350).cropInBounds ∧
    (create_background_layer none 1080 1350).dims = (1080, 1350) ∧
    (∀ y₁ y₂, y₁ ≤ y₂ → gradientRowValue 1350 y₂ ≤ gradientRowValue 1350 y₁) ∧
    gradientRowValue 1350 0 = 240 ∧ gradientRowValue 1350 (1350 - 1) ≤ 220 :=
  C4_background_layer_size_and_gradient_fallback 4000 3000 1080 1350
    (by norm_num) (by norm_num) (by norm_num) (by norm_num)

/-- C5: the logo recolor is the pointwise map of a pure per-pixel rule:
for alpha > 0 the unweighted mean of R,G,B decides between exactly the
brand primary (mean > 128) and exactly the brand secondary color, with
alpha preserved; fully transparent pixels stay fully transparent; in
particular gray 200 maps to the primary and gray 50 to the secondary
color. -/
theorem C5_logo_recolor_pure_per_pixel (colors : RgbPalette) (logo_data : List RGBA)
    (r g b a : Nat) :
    apply_color_template colors logo_data = logo_data.map (recolorPixel colors) ∧
    (0 < a → 128 < ((r : ℚ) + g + b) / 3 →
      recolorPixel colors (r, g, b, a)
        = (colors.primary.1, colors.primary.2.1, colors.primary.2.2, a)) ∧
    (0 < a → ¬ 128 < ((r : ℚ) + g + b) / 3 →
      recolorPixel colors (r, g, b, a)
        = (colors.secondary.1, colors.secondary.2.1, colors.secondary.2.2, a)) ∧
    recolorPixel colors (r, g, b, 0) = (0, 0, 0, 0) ∧
    recolorPixel colors (200, 200, 200, 255)
      = (colors.primary.1, colors.primary.2.1, colors.primary.2.2, 255) ∧
    recolorPixel colors (50, 50, 50, 255)
      = (colors.secondary.1, colors.secondary.2.1, colors.secondary.2.2, 255) := by
  refine ⟨apply_color_template_eq_map colors logo_data, ?_, ?_, ?_, ?_, ?_⟩
  · intro ha hi
    unfold recolorPixel
    rw [if_pos ha, if_pos hi]
  · intro ha hi
    unfold recolorPixel
    rw [if_pos ha, if_neg hi]
  · unfold recolorPixel
    rw [if_neg (by norm_num : ¬ (0 : Nat) < 0)]
  · unfold recolorPixel
    rw [if_pos (by norm_num : (0 : Nat) < 255), if_pos (by norm_num :
      (128 : ℚ) < ((200 : Nat) + (200 : Nat) + (200 : Nat)) / 3)]
  · unfold recolorPixel
    rw [if_pos (by norm_num : (0 : Nat) < 255), if_neg (by norm_num :
      ¬ (128 : ℚ) < ((50 : Nat) + (50 : Nat) + (50 : Nat)) / 3)]

/-- C5 witness: the rule applied to Kaleva's palette on a concrete pixel
list, with the luma hypotheses discharged at gray 200. -/
theorem C5_witness :
    recolorPixel (get_newspaper_colors_rgb "Kaleva") (200, 200, 200, 77)
      = (255, 140, 48, 77) ∧
    apply_color_template (get_newspaper_colors_rgb "Kaleva")
        [(200, 200, 200, 255), (50, 50, 50, 128), (9, 9, 9, 0)]
      = [(255, 140, 48, 255), (255, 255, 255, 128), (0, 0, 0, 0)] := by
  constructor
  · exact (C5_logo_recolor_pure_per_pixel (get_newspaper_colors_rgb "Kaleva") []
      200 200 200 77).2.1 (by norm_num) (by norm_num)
  · rw [(C5_logo_recolor_pure_per_pixel (get_newspaper_colors_rgb "Kaleva")
      [(200, 200, 200, 255), (50, 50, 50, 128), (9, 9, 9, 0)] 0 0 0 0).1]
    have hc : get_newspaper_colors_rgb "Kaleva"
        = ⟨(255, 140, 48), (255, 255, 255), (0, 0, 0), (255, 140, 48), (255, 255, 255),
           (0, 0, 0)⟩ := by decide
    rw [hc]
    norm_num [recolorPixel]

/-- C6: for every font metric, wrap width and input text with at least one
word, the greedy wrap produces a non-empty list of lines whose
concatenated word sequence is exactly the input's word sequence — no word
dropped, duplicated or reordered. -/
theorem C6_wordwrap_preserves_word_sequence (measureW : String → Nat) (width : Nat)
    (text : String) (h : pySplit text ≠ []) :
    (headlineLines measureW width text).flatten = pySplit text ∧
    headlineLines measureW width text ≠ [] := by
  have hf : (headlineLines measureW width text).flatten = pySplit text :=
    wrapWords_flatten (exceedsWidth measureW width) (pySplit text)
  refine ⟨hf, ?_⟩
  intro hnil
  apply h
  rw [← hf, hnil]
  rfl

/-- C6 witness: a concrete headline under a 12 px-per-character metric. -/
theorem C6_witness :
    pySplit "Alue- ja kuntavaalit etenevät" ≠ [] ∧
    (headlineLines (fun s => 12 * s.length) 200 "Alue- ja kuntavaalit etenevät").flatten
      = pySplit "Alue- ja kuntavaalit etenevät" :=
  ⟨by decide,
   (C6_wordwrap_preserves_word_sequence (fun s => 12 * s.length) 200
     "Alue- ja kuntavaalit etenevät" (by decide)).1⟩

/-- C7 counterexample: under a 20 px-per-character metric on the 1080 px
canvas the single 44-character word is kept alone as a line measuring
880 px, which exceeds 80 % of the canvas width (864 px) — so the claim
that every produced line measures at most 80 % of the canvas width is
false, exactly as the no-mid-word-breaking rule forces. -/
theorem C7_counterexample_long_word_overflows :
    headlineLines (fun s => 20 * s.length) 1080
        "Lentokonesuihkuturbiinimoottoriapumekaanikko"
      = [["Lentokonesuihkuturbiinimoottoriapumekaanikko"]] ∧
    ¬ (∀ line ∈ headlineLines (fun s => 20 * s.length) 1080
          "Lentokonesuihkuturbiinimoottoriapumekaanikko",
        ((20 * (joinWords line).length : ℚ) ≤ (1080 : ℚ) * (4 / 5))) := by
  have heq : headlineLines (fun s => 20 * s.length) 1080
      "Lentokonesuihkuturbiinimoottoriapumekaanikko"
      = [["Lentokonesuihkuturbiinimoottoriapumekaanikko"]] := by decide
  refine ⟨heq, ?_⟩
  intro hall
  have hthis := hall ["Lentokonesuihkuturbiinimoottoriapumekaanikko"]
    (heq ▸ List.mem_singleton.mpr rfl)
  have hlen : (joinWords ["Lentokonesuihkuturbiinimoottoriapumekaanikko"]).length = 44 := by
    decide
  rw [hlen] at hthis
  norm_num at hthis

/-- C7 amended: every produced line containing at least two words measures
at most 80 % of the canvas width; a line consisting of a single word wider
than that fraction is kept alone and may exceed it (no mid-word
breaking). -/
theorem C7_amended_multiword_lines_fit (measureW : String → Nat) (width : Nat)
    (text : String) (line : List String)
    (hmem : line ∈ headlineLines measureW width text) (hlen : 2 ≤ line.length) :
    (measureW (joinWords line) : ℚ) ≤ (width : ℚ) * (4 / 5) := by
  have h := wrapWords_multiword_fits (exceedsWidth measureW width) (pySplit text)
    line hmem hlen
  rw [exceedsWidth_eq_rat] at h
  have h2 : ¬ ((measureW (joinWords line) : ℚ) > (width : ℚ) * (4 / 5)) := by
    simpa using h
  linarith

/-- C7 witness: the two-word line "ab cd" of a concrete wrap, measuring
50 px against the 80 px budget. -/
theorem C7_amended_witness :
    ["ab", "cd"] ∈ headlineLines (fun s => 10 * s.length) 100 "ab cd efghij" ∧
    (((10 * (joinWords ["ab", "cd"]).length : Nat) : ℚ) ≤ ((100 : Nat) : ℚ) * (4 / 5)) :=
  ⟨by decide,
   C7_amended_multiword_lines_fit (fun s => 10 * s.length) 100 "ab cd efghij"
     ["ab", "cd"] (by decide) (by decide)⟩

end KalevaAi
